import Mathlib

/-!
Verification of the shade-aware routing subsystem of `shady-directions`.

The JavaScript sources under `src/lib/` are shallowly embedded below:
pure functions become Lean functions over `ℚ` (JS numbers are modelled by
exact rationals; the geodesic distance of the external `@turf/distance`
library is passed in as an explicit function parameter `dist`, taking
`[lon, lat]` pairs exactly as turf does), fallible code returns `Except`,
and the externally supplied pathfinder of `ngraph.path` is likewise a
parameter.
-/

/-! ## Shadow sampler (`src/lib/shadowSampler.js`) -/

/-- Raster image of the shade field: `pixels` is the RGBA byte buffer,
modelled as a total function from byte index to channel value. -/
structure ShadeImage where
  width : ℕ
  height : ℕ
  pixels : ℕ → ℕ

/-- Geographic bounding box of the shade raster. -/
structure ShadeBounds where
  west : ℚ
  east : ℚ
  north : ℚ
  south : ℚ

/-- The `shadeData` consumed by `ShadowSampler`'s constructor. -/
structure ShadeData where
  bounds : ShadeBounds
  image : ShadeImage

/-- `Math.floor(normalizedX * this.width)` of `sampleAt`. -/
def pixelXOf (sd : ShadeData) (lon : ℚ) : ℤ :=
  ⌊(lon - sd.bounds.west) / (sd.bounds.east - sd.bounds.west) * sd.image.width⌋

/-- `Math.floor(normalizedY * this.height)` of `sampleAt`. -/
def pixelYOf (sd : ShadeData) (lat : ℚ) : ℤ :=
  ⌊(sd.bounds.north - lat) / (sd.bounds.north - sd.bounds.south) * sd.image.height⌋

/-- The out-of-bounds condition checked by `sampleAt` before indexing the
raster. -/
def pixelOutOfRaster (sd : ShadeData) (lat lon : ℚ) : Prop :=
  pixelXOf sd lon < 0 ∨ (sd.image.width : ℤ) ≤ pixelXOf sd lon ∨
    pixelYOf sd lat < 0 ∨ (sd.image.height : ℤ) ≤ pixelYOf sd lat

instance (sd : ShadeData) (lat lon : ℚ) : Decidable (pixelOutOfRaster sd lat lon) := by
  unfold pixelOutOfRaster; infer_instance

/-- `ShadowSampler.sampleAt(lat, lon)`: maps the coordinate into pixel space,
returns `false` outside the raster, otherwise classifies the pixel as shaded
when the mean of its three colour channels is below 128. -/
def sampleAt (sd : ShadeData) (lat lon : ℚ) : Bool :=
  if pixelOutOfRaster sd lat lon then false
  else
    let pixelIndex := (pixelYOf sd lat * sd.image.width + pixelXOf sd lon).toNat * 4
    let color := sd.image.pixels pixelIndex
    let green := sd.image.pixels (pixelIndex + 1)
    let blue := sd.image.pixels (pixelIndex + 2)
    decide (((color : ℚ) + green + blue) / 3 < 128)

/-- `Math.max(1, Math.ceil(dist / sampleIntervalMeters))` of
`sampleAlongLine`. -/
def samplesForLength (d intervalMeters : ℚ) : ℕ :=
  max 1 (Int.toNat ⌈d / intervalMeters⌉)

/-- The interpolated point at loop index `i` of `sampleAlongLine`
(`t = i / samples`, linear interpolation of latitude and longitude). -/
def lineSamplePoint (latA lonA latB lonB : ℚ) (n i : ℕ) : ℚ × ℚ :=
  (latA + ((i : ℚ) / (n : ℚ)) * (latB - latA),
   lonA + ((i : ℚ) / (n : ℚ)) * (lonB - lonA))

/-- The points evaluated by the `for (let i = 0; i <= samples; i++)` loop of
`sampleAlongLine`. -/
def samplePointsAlongLine (latA lonA latB lonB : ℚ) (n : ℕ) : List (ℚ × ℚ) :=
  (List.range (n + 1)).map (lineSamplePoint latA lonA latB lonB n)

/-- `shadeSum` accumulated by the loop of `sampleAlongLine`. -/
def shadeCountAlongLine (sd : ShadeData) (latA lonA latB lonB : ℚ) (n : ℕ) : ℕ :=
  ∑ i ∈ Finset.range (n + 1),
    if sampleAt sd (lineSamplePoint latA lonA latB lonB n i).1
        (lineSamplePoint latA lonA latB lonB n i).2 then 1 else 0

/-- `validSamples` accumulated by the loop of `sampleAlongLine`: the guard
`isShaded !== null` always holds because `sampleAt` returns a boolean, so
every iteration contributes one valid sample. -/
def validCountAlongLine (n : ℕ) : ℕ :=
  ∑ _i ∈ Finset.range (n + 1), 1

/-- `ShadowSampler.sampleAlongLine(latA, lonA, latB, lonB,
sampleIntervalMeters = 5)`.  The geodesic `distance` of `@turf/distance` is
the parameter `dist`, applied to `[lon, lat]` pairs as in the source. -/
def sampleAlongLine (dist : ℚ × ℚ → ℚ × ℚ → ℚ) (sd : ShadeData)
    (latA lonA latB lonB : ℚ) (sampleIntervalMeters : ℚ := 5) : ℚ :=
  let d := dist (lonA, latA) (lonB, latB)
  let samples := samplesForLength d sampleIntervalMeters
  let shadeSum := shadeCountAlongLine sd latA lonA latB lonB samples
  let validSamples := validCountAlongLine samples
  if 0 < validSamples then (shadeSum : ℚ) / (validSamples : ℚ) else 0

lemma validCountAlongLine_eq (n : ℕ) : validCountAlongLine n = n + 1 := by
  simp [validCountAlongLine]

lemma shadeCountAlongLine_le (sd : ShadeData) (latA lonA latB lonB : ℚ) (n : ℕ) :
    shadeCountAlongLine sd latA lonA latB lonB n ≤ n + 1 := by
  unfold shadeCountAlongLine
  calc (∑ i ∈ Finset.range (n + 1),
          if sampleAt sd (lineSamplePoint latA lonA latB lonB n i).1
              (lineSamplePoint latA lonA latB lonB n i).2 then 1 else 0)
      ≤ ∑ _i ∈ Finset.range (n + 1), 1 := by
        apply Finset.sum_le_sum
        intro i _
        split <;> omega
    _ = n + 1 := by simp

/-- Auxiliary: a `countP` over mapped range indices agrees with the
`Finset.range` sum of indicator values. -/
lemma countP_range_eq_sum (p : ℕ → Bool) (m : ℕ) :
    List.countP p (List.range m) = ∑ i ∈ Finset.range m, if p i then 1 else 0 := by
  induction m with
  | zero => simp
  | succ k ih =>
    rw [List.range_succ, List.countP_append, Finset.sum_range_succ, ih]
    simp [List.countP_cons]

lemma shadeCount_eq_filter_length (sd : ShadeData) (latA lonA latB lonB : ℚ) (n : ℕ) :
    shadeCountAlongLine sd latA lonA latB lonB n
      = ((samplePointsAlongLine latA lonA latB lonB n).filter
          (fun p => sampleAt sd p.1 p.2)).length := by
  unfold shadeCountAlongLine samplePointsAlongLine
  rw [← List.countP_eq_length_filter, List.countP_map, ← countP_range_eq_sum]
  rfl

/-- C5 (amended): `sampleAlongLine` evaluates `samples + 1` points, one more
than `max(1, ceil(d / interval))`, because the loop bound is inclusive. -/
theorem sampleAlongLine_count_and_range (dist : ℚ × ℚ → ℚ × ℚ → ℚ) (sd : ShadeData)
    (latA lonA latB lonB intervalMeters : ℚ) :
    (samplePointsAlongLine latA lonA latB lonB
        (samplesForLength (dist (lonA, latA) (lonB, latB)) intervalMeters)).length
      = samplesForLength (dist (lonA, latA) (lonB, latB)) intervalMeters + 1 ∧
    sampleAlongLine dist sd latA lonA latB lonB intervalMeters
      = (shadeCountAlongLine sd latA lonA latB lonB
            (samplesForLength (dist (lonA, latA) (lonB, latB)) intervalMeters) : ℚ)
        / ((samplesForLength (dist (lonA, latA) (lonB, latB)) intervalMeters : ℚ) + 1) ∧
    0 ≤ sampleAlongLine dist sd latA lonA latB lonB intervalMeters ∧
    sampleAlongLine dist sd latA lonA latB lonB intervalMeters ≤ 1 := by
  set n := samplesForLength (dist (lonA, latA) (lonB, latB)) intervalMeters with hn
  have hlen : (samplePointsAlongLine latA lonA latB lonB n).length = n + 1 := by
    simp [samplePointsAlongLine]
  have heval : sampleAlongLine dist sd latA lonA latB lonB intervalMeters
      = (shadeCountAlongLine sd latA lonA latB lonB n : ℚ) / ((n : ℚ) + 1) := by
    simp only [sampleAlongLine, ← hn, validCountAlongLine_eq]
    rw [if_pos (Nat.succ_pos n)]
    push_cast
    ring
  refine ⟨hlen, heval, ?_, ?_⟩
  · rw [heval]
    apply div_nonneg (by positivity)
    positivity
  · rw [heval]
    rw [div_le_one (by positivity)]
    have := shadeCountAlongLine_le sd latA lonA latB lonB n
    exact_mod_cast this

/-- C5 (counterexample): with geodesic length 7 and the default 5 m interval
the claimed count is `max(1, ceil(7/5)) = 2`, but the loop evaluates 3
points. -/
theorem sampleAlongLine_count_counterexample :
    (samplePointsAlongLine 0 0 0 0 (samplesForLength 7 5)).length = 3 ∧
    samplesForLength 7 5 = 2 ∧ (3 : ℕ) ≠ 2 := by
  have hceil : ⌈(7 : ℚ) / 5⌉ = 2 := by
    rw [Int.ceil_eq_iff]
    norm_num
  have hs : samplesForLength 7 5 = 2 := by
    rw [samplesForLength, hceil]
    rfl
  refine ⟨?_, hs, by decide⟩
  rw [samplePointsAlongLine, hs]
  simp

lemma lineSamplePoint_reflect (latA lonA latB lonB : ℚ) (n i : ℕ)
    (hn : n ≠ 0) (hi : i ≤ n) :
    lineSamplePoint latB lonB latA lonA n i
      = lineSamplePoint latA lonA latB lonB n (n - i) := by
  have hnq : (n : ℚ) ≠ 0 := Nat.cast_ne_zero.mpr hn
  have hcast : ((n - i : ℕ) : ℚ) = (n : ℚ) - (i : ℚ) := by
    push_cast [Nat.cast_sub hi]
    ring
  unfold lineSamplePoint
  rw [hcast, Prod.mk.injEq]
  constructor <;> (field_simp; ring)

lemma shadeCountAlongLine_symm (sd : ShadeData) (latA lonA latB lonB : ℚ)
    (n : ℕ) (hn : n ≠ 0) :
    shadeCountAlongLine sd latB lonB latA lonA n
      = shadeCountAlongLine sd latA lonA latB lonB n := by
  unfold shadeCountAlongLine
  have hstep : ∀ i ∈ Finset.range (n + 1),
      (if sampleAt sd (lineSamplePoint latB lonB latA lonA n i).1
          (lineSamplePoint latB lonB latA lonA n i).2 then 1 else 0)
        = (fun j => if sampleAt sd (lineSamplePoint latA lonA latB lonB n j).1
            (lineSamplePoint latA lonA latB lonB n j).2 then 1 else 0) (n + 1 - 1 - i) := by
    intro i hi
    have hi' : i ≤ n := Nat.lt_succ_iff.mp (Finset.mem_range.mp hi)
    simp only [Nat.add_sub_cancel]
    rw [lineSamplePoint_reflect latA lonA latB lonB n i hn hi']
  rw [Finset.sum_congr rfl hstep]
  exact Finset.sum_range_reflect
    (fun j => if sampleAt sd (lineSamplePoint latA lonA latB lonB n j).1
        (lineSamplePoint latA lonA latB lonB n j).2 then 1 else 0) (n + 1)

/-- C9: `sampleAlongLine` is symmetric in its endpoints whenever the
distance function is symmetric: both directions sample the same set of
interpolated points, so the shade fraction is identical. -/
theorem sampleAlongLine_symm (dist : ℚ × ℚ → ℚ × ℚ → ℚ) (sd : ShadeData)
    (latA lonA latB lonB intervalMeters : ℚ)
    (hsym : ∀ p q, dist p q = dist q p) :
    sampleAlongLine dist sd latA lonA latB lonB intervalMeters
      = sampleAlongLine dist sd latB lonB latA lonA intervalMeters := by
  have hd : dist (lonB, latB) (lonA, latA) = dist (lonA, latA) (lonB, latB) :=
    hsym _ _
  have hn : samplesForLength (dist (lonA, latA) (lonB, latB)) intervalMeters ≠ 0 := by
    unfold samplesForLength
    omega
  simp only [sampleAlongLine, hd]
  rw [shadeCountAlongLine_symm sd latA lonA latB lonB _ hn]

/-- Witness for C9 at a concrete symmetric distance function and raster. -/
theorem sampleAlongLine_symm_witness :
    sampleAlongLine (fun _ _ => 5) ⟨⟨0, 1, 1, 0⟩, ⟨4, 4, fun _ => 0⟩⟩ 0 0 1 1 5
      = sampleAlongLine (fun _ _ => 5) ⟨⟨0, 1, 1, 0⟩, ⟨4, 4, fun _ => 0⟩⟩ 1 1 0 0 5 :=
  sampleAlongLine_symm (fun _ _ => 5) ⟨⟨0, 1, 1, 0⟩, ⟨4, 4, fun _ => 0⟩⟩ 0 0 1 1 5
    (fun _ _ => rfl)

/-- C10: `sampleAt` always returns a plain boolean — `false`, not a distinct
unknown value, for coordinates mapping outside the raster — so in
`sampleAlongLine` every sampled point is a valid sample, the valid-sample
count equals the number of loop iterations and is strictly positive, the
zero-valid-samples fallback returning 0 is unreachable (the result is always
`shadeSum / validSamples`), and out-of-raster points are counted as sunny
samples in the denominator. -/
theorem sampleAt_no_unknown_value (dist : ℚ × ℚ → ℚ × ℚ → ℚ) (sd : ShadeData)
    (latA lonA latB lonB intervalMeters : ℚ) :
    (∀ lat lon, pixelOutOfRaster sd lat lon → sampleAt sd lat lon = false) ∧
    validCountAlongLine (samplesForLength (dist (lonA, latA) (lonB, latB)) intervalMeters)
      = (samplePointsAlongLine latA lonA latB lonB
          (samplesForLength (dist (lonA, latA) (lonB, latB)) intervalMeters)).length ∧
    0 < validCountAlongLine
        (samplesForLength (dist (lonA, latA) (lonB, latB)) intervalMeters) ∧
    sampleAlongLine dist sd latA lonA latB lonB intervalMeters
      = (shadeCountAlongLine sd latA lonA latB lonB
            (samplesForLength (dist (lonA, latA) (lonB, latB)) intervalMeters) : ℚ)
        / (validCountAlongLine
            (samplesForLength (dist (lonA, latA) (lonB, latB)) intervalMeters) : ℚ) := by
  refine ⟨?_, ?_, ?_, ?_⟩
  · intro lat lon h
    unfold sampleAt
    rw [if_pos h]
  · rw [validCountAlongLine_eq]
    simp [samplePointsAlongLine]
  · rw [validCountAlongLine_eq]
    omega
  · simp only [sampleAlongLine]
    rw [if_pos]
    rw [validCountAlongLine_eq]
    omega

/-- Witness for C10: out-of-raster lookup on a concrete raster yields
`false`. -/
theorem sampleAt_no_unknown_value_witness :
    sampleAt ⟨⟨0, 1, 1, 0⟩, ⟨4, 4, fun _ => 0⟩⟩ 5 5 = false :=
  (sampleAt_no_unknown_value (fun _ _ => 5) ⟨⟨0, 1, 1, 0⟩, ⟨4, 4, fun _ => 0⟩⟩
      0 0 1 1 5).1 5 5 (by
    refine Or.inr (Or.inl ?_)
    unfold pixelXOf
    norm_num)

/-! ## Graph builder (`src/lib/routing.js`, `buildGraph`) -/

/-- The OSM tags read by `buildGraph` and its `isWalkable` filter; an absent
tag is `none`. -/
structure Tags where
  highway : Option String := none
  access : Option String := none
  foot : Option String := none
  oneway : Option String := none

/-- A raw OSM way: ordered member node ids plus tags (`way.tags || {}` is
modelled by `Tags` with all-`none` defaults). -/
structure Way where
  nodeIds : List ℕ
  tags : Tags := {}

/-- The `walkableHighways` allow-list of `isWalkable` (note it contains
`unclassified`). -/
def walkableHighways : List String :=
  ["footway", "path", "pedestrian", "steps", "cycleway",
   "residential", "living_street", "service", "track",
   "primary", "secondary", "tertiary", "unclassified",
   "primary_link", "secondary_link", "tertiary_link"]

/-- `isWalkable(way)` from `buildGraph`: requires a highway tag, rejects
foot-inaccessible ways, then checks the allow-list.  (A JS empty-string
highway tag is falsy and rejected early; it is equally rejected here by the
allow-list, so the value is unchanged.) -/
def isWalkable (way : Way) : Bool :=
  match way.tags.highway with
  | none => false
  | some hw =>
    if way.tags.access == some "private" && !(way.tags.foot == some "yes") then false
    else if way.tags.access == some "no" && !(way.tags.foot == some "yes") then false
    else if way.tags.foot == some "no" then false
    else walkableHighways.contains hw

/-- The allow-list exactly as the spec sentence enumerates it (no
`unclassified`). -/
def specWalkableHighways : List String :=
  ["footway", "path", "pedestrian", "steps", "cycleway",
   "residential", "living_street", "service", "track",
   "primary", "secondary", "tertiary",
   "primary_link", "secondary_link", "tertiary_link"]

/-- Walkability as the spec words it: has a highway tag, not
foot-inaccessible, and highway type in the given allow-list. -/
def specIsWalkable (allowList : List String) (way : Way) : Bool :=
  way.tags.highway.isSome &&
    !(way.tags.access == some "private" && !(way.tags.foot == some "yes")) &&
    !(way.tags.access == some "no" && !(way.tags.foot == some "yes")) &&
    !(way.tags.foot == some "no") &&
    way.tags.highway.elim false (fun hw => allowList.contains hw)

/-- C4 (counterexample): a way tagged `highway=unclassified` with no access
restrictions is accepted by the builder's `isWalkable`, yet `unclassified` is
not in the claim's fifteen-entry allow-list. -/
theorem isWalkable_unclassified_counterexample :
    isWalkable { nodeIds := [], tags := { highway := some "unclassified" } } = true ∧
    specIsWalkable specWalkableHighways
      { nodeIds := [], tags := { highway := some "unclassified" } } = false := by
  constructor <;> rfl

/-- C4 (amended): `isWalkable` holds iff the way has a highway tag, is not
foot-inaccessible, and its highway type is in the fixed allow-list — the
allow-list being the sixteen types that include `unclassified`. -/
theorem isWalkable_spec (way : Way) :
    isWalkable way = specIsWalkable walkableHighways way := by
  unfold isWalkable specIsWalkable
  cases hw : way.tags.highway with
  | none => simp
  | some h =>
    simp only [Option.isSome_some, Bool.true_and, Option.elim_some]
    by_cases h1 : way.tags.access == some "private" && !(way.tags.foot == some "yes")
    · simp [h1]
    · by_cases h2 : way.tags.access == some "no" && !(way.tags.foot == some "yes")
      · simp [h1, h2]
      · by_cases h3 : way.tags.foot == some "no"
        · simp [h1, h2, h3]
        · simp [h1, h2, h3]

/-- Oneway detection of `buildGraph`: tag value `yes`, `true` or `1`. -/
def isOneway (t : Tags) : Bool :=
  t.oneway == some "yes" || t.oneway == some "true" || t.oneway == some "1"

/-- A directed edge added to the ngraph instance by `buildGraph`
(`addLink(a, b, {eid, length, ...})`). -/
structure DirEdge where
  eid : ℕ
  src : ℕ
  dst : ℕ
  length : ℚ

/-- Coordinate of a resolvable node (`nodes.get(id)`); `buildGraph` only
consults it on ids that passed the `nodes.has` filter. -/
def coordOfNode (nodesMap : ℕ → Option (ℚ × ℚ)) (nid : ℕ) : ℚ × ℚ :=
  (nodesMap nid).getD (0, 0)

/-- `distance([nodeA.lon, nodeA.lat], [nodeB.lon, nodeB.lat])` — the edge
length computed by `buildGraph` (coordinates are stored `(lat, lon)`). -/
def edgeLength (dist : ℚ × ℚ → ℚ × ℚ → ℚ) (C : ℕ → ℚ × ℚ) (a b : ℕ) : ℚ :=
  dist ((C a).2, (C a).1) ((C b).2, (C b).1)

/-- The one or two directed edges `buildGraph` materializes for a node pair:
always the forward edge, and the reverse edge when the way is not one-way,
both carrying the same `eid` and length. -/
def wayPairEdges (oneway : Bool) (e a b : ℕ) (len : ℚ) : List DirEdge :=
  ⟨e, a, b, len⟩ :: (if oneway then [] else [⟨e, b, a, len⟩])

/-- The inner loop of `buildGraph` over consecutive valid node pairs of one
way: skips zero-length pairs, otherwise assigns the next edge id and emits
the directed edge(s). -/
def wayEdgesAux (dist : ℚ × ℚ → ℚ × ℚ → ℚ) (C : ℕ → ℚ × ℚ) (oneway : Bool) :
    List ℕ → ℕ → List DirEdge
  | a :: b :: rest, e =>
    if edgeLength dist C a b = 0 then wayEdgesAux dist C oneway (b :: rest) e
    else wayPairEdges oneway e a b (edgeLength dist C a b)
        ++ wayEdgesAux dist C oneway (b :: rest) (e + 1)
  | _, _ => []

/-- Edge construction of `buildGraph` for a single walkable way: filter the
member nodes down to resolvable ones, skip ways with fewer than two, then
emit edges for consecutive pairs. -/
def buildWayEdges (dist : ℚ × ℚ → ℚ × ℚ → ℚ) (nodesMap : ℕ → Option (ℚ × ℚ))
    (way : Way) (e0 : ℕ) : List DirEdge :=
  let validNodes := way.nodeIds.filter (fun nid => (nodesMap nid).isSome)
  if validNodes.length < 2 then []
  else wayEdgesAux dist (coordOfNode nodesMap) (isOneway way.tags) validNodes e0

lemma wayPairEdges_eid {oneway : Bool} {e a b : ℕ} {len : ℚ} {ed : DirEdge}
    (h : ed ∈ wayPairEdges oneway e a b len) : ed.eid = e := by
  unfold wayPairEdges at h
  rcases List.mem_cons.mp h with rfl | h'
  · rfl
  · cases oneway with
    | true => simp at h'
    | false =>
      simp only [if_neg Bool.false_ne_true, List.mem_singleton] at h'
      rw [h']

lemma wayPairEdges_length {oneway : Bool} {e a b : ℕ} {len : ℚ} {ed : DirEdge}
    (h : ed ∈ wayPairEdges oneway e a b len) : ed.length = len := by
  unfold wayPairEdges at h
  rcases List.mem_cons.mp h with rfl | h'
  · rfl
  · cases oneway with
    | true => simp at h'
    | false =>
      simp only [if_neg Bool.false_ne_true, List.mem_singleton] at h'
      rw [h']

lemma wayEdgesAux_eid_mono (dist : ℚ × ℚ → ℚ × ℚ → ℚ) (C : ℕ → ℚ × ℚ)
    (oneway : Bool) :
    ∀ (l : List ℕ) (e0 : ℕ), ∀ ed ∈ wayEdgesAux dist C oneway l e0, e0 ≤ ed.eid := by
  intro l
  induction l with
  | nil => intro e0 ed h; simp [wayEdgesAux] at h
  | cons a tail ih =>
    intro e0 ed h
    cases tail with
    | nil => simp [wayEdgesAux] at h
    | cons b rest =>
      rw [wayEdgesAux] at h
      by_cases hz : edgeLength dist C a b = 0
      · rw [if_pos hz] at h
        exact ih e0 ed h
      · rw [if_neg hz] at h
        rcases List.mem_append.mp h with h1 | h2
        · rw [wayPairEdges_eid h1]
        · have := ih (e0 + 1) ed h2
          omega

lemma wayEdgesAux_length_pos (dist : ℚ × ℚ → ℚ × ℚ → ℚ) (C : ℕ → ℚ × ℚ)
    (oneway : Bool) (hd : ∀ p q, 0 ≤ dist p q) :
    ∀ (l : List ℕ) (e0 : ℕ), ∀ ed ∈ wayEdgesAux dist C oneway l e0, 0 < ed.length := by
  intro l
  induction l with
  | nil => intro e0 ed h; simp [wayEdgesAux] at h
  | cons a tail ih =>
    intro e0 ed h
    cases tail with
    | nil => simp [wayEdgesAux] at h
    | cons b rest =>
      rw [wayEdgesAux] at h
      by_cases hz : edgeLength dist C a b = 0
      · rw [if_pos hz] at h
        exact ih e0 ed h
      · rw [if_neg hz] at h
        rcases List.mem_append.mp h with h1 | h2
        · rw [wayPairEdges_length h1]
          exact lt_of_le_of_ne (hd _ _) (Ne.symm hz)
        · exact ih (e0 + 1) ed h2

lemma wayEdgesAux_filter_pair (dist : ℚ × ℚ → ℚ × ℚ → ℚ) (C : ℕ → ℚ × ℚ)
    (oneway : Bool) (a b : ℕ) (post : List ℕ)
    (hlen : edgeLength dist C a b ≠ 0) :
    ∀ (pre : List ℕ) (e0 : ℕ), ∃ e, e0 ≤ e ∧
      (wayEdgesAux dist C oneway (pre ++ a :: b :: post) e0).filter
          (fun ed => ed.eid == e)
        = wayPairEdges oneway e a b (edgeLength dist C a b) := by
  intro pre
  induction pre with
  | nil =>
    intro e0
    refine ⟨e0, le_refl e0, ?_⟩
    rw [List.nil_append, wayEdgesAux, if_neg hlen, List.filter_append]
    have h1 : (wayPairEdges oneway e0 a b (edgeLength dist C a b)).filter
        (fun ed => ed.eid == e0)
        = wayPairEdges oneway e0 a b (edgeLength dist C a b) := by
      rw [List.filter_eq_self]
      intro ed hed
      simp [wayPairEdges_eid hed]
    have h2 : (wayEdgesAux dist C oneway (b :: post) (e0 + 1)).filter
        (fun ed => ed.eid == e0) = [] := by
      rw [List.filter_eq_nil_iff]
      intro ed hed
      have := wayEdgesAux_eid_mono dist C oneway (b :: post) (e0 + 1) ed hed
      simp only [beq_iff_eq]
      omega
    rw [h1, h2, List.append_nil]
  | cons x pre' ih =>
    intro e0
    cases hp : pre' ++ a :: b :: post with
    | nil => exact absurd hp (by simp)
    | cons y t =>
      have hstep : (x :: pre') ++ a :: b :: post = x :: y :: t := by
        rw [List.cons_append, hp]
      rw [hstep, wayEdgesAux]
      by_cases hz : edgeLength dist C x y = 0
      · rw [if_pos hz, ← hp]
        exact ih e0
      · rw [if_neg hz]
        obtain ⟨e, he, hfilt⟩ := ih (e0 + 1)
        rw [hp] at hfilt
        refine ⟨e, by omega, ?_⟩
        rw [List.filter_append, hfilt]
        have h0 : (wayPairEdges oneway e0 x y (edgeLength dist C x y)).filter
            (fun ed => ed.eid == e) = [] := by
          rw [List.filter_eq_nil_iff]
          intro ed hed
          rw [wayPairEdges_eid hed]
          simp only [beq_iff_eq]
          omega
        rw [h0, List.nil_append]

/-- C6: in each walkable way, every consecutive resolvable node pair of
nonzero length yields exactly the forward edge when the way is one-way and
exactly the forward and reverse edges otherwise, sharing one freshly
assigned edge id and one length (hence any shade value attached by edge id
is shared too); and with a nonnegative distance function no produced edge
has nonpositive length. -/
theorem buildWayEdges_directional (dist : ℚ × ℚ → ℚ × ℚ → ℚ)
    (nodesMap : ℕ → Option (ℚ × ℚ)) (way : Way) (e0 : ℕ)
    (pre post : List ℕ) (a b : ℕ)
    (hsplit : way.nodeIds.filter (fun nid => (nodesMap nid).isSome)
      = pre ++ a :: b :: post)
    (hlen : edgeLength dist (coordOfNode nodesMap) a b ≠ 0) :
    (∃ e, e0 ≤ e ∧
      (buildWayEdges dist nodesMap way e0).filter (fun ed => ed.eid == e)
        = (if isOneway way.tags
            then [⟨e, a, b, edgeLength dist (coordOfNode nodesMap) a b⟩]
            else [⟨e, a, b, edgeLength dist (coordOfNode nodesMap) a b⟩,
              ⟨e, b, a, edgeLength dist (coordOfNode nodesMap) a b⟩]) ∧
      ∀ shadeByEdgeId : ℕ → ℚ, ∀ ed1 ∈ (buildWayEdges dist nodesMap way e0).filter
          (fun ed => ed.eid == e), ∀ ed2 ∈ (buildWayEdges dist nodesMap way e0).filter
          (fun ed => ed.eid == e),
        shadeByEdgeId ed1.eid = shadeByEdgeId ed2.eid) ∧
    ((∀ p q, 0 ≤ dist p q) →
      ∀ ed ∈ buildWayEdges dist nodesMap way e0, 0 < ed.length) := by
  have hbuild : buildWayEdges dist nodesMap way e0
      = wayEdgesAux dist (coordOfNode nodesMap) (isOneway way.tags)
          (pre ++ a :: b :: post) e0 := by
    unfold buildWayEdges
    rw [hsplit, if_neg (by simp; omega)]
  constructor
  · obtain ⟨e, he, hfilt⟩ :=
      wayEdgesAux_filter_pair dist (coordOfNode nodesMap) (isOneway way.tags)
        a b post hlen pre e0
    refine ⟨e, he, ?_, ?_⟩
    · rw [hbuild, hfilt]
      unfold wayPairEdges
      cases isOneway way.tags <;> simp
    · intro shadeByEdgeId ed1 h1 ed2 h2
      rw [List.mem_filter] at h1 h2
      have e1 : ed1.eid = e := by
        have := h1.2
        simpa using this
      have e2 : ed2.eid = e := by
        have := h2.2
        simpa using this
      rw [e1, e2]
  · intro hd ed hed
    rw [hbuild] at hed
    exact wayEdgesAux_length_pos dist (coordOfNode nodesMap) (isOneway way.tags)
      hd _ e0 ed hed

/-- Witness for C6 on a concrete two-node bidirectional way. -/
theorem buildWayEdges_directional_witness :
    (∃ e, 0 ≤ e ∧
      (buildWayEdges (fun _ _ => 3) (fun n => if n ≤ 1 then some ((n : ℚ), 0) else none)
          { nodeIds := [0, 1] } 0).filter (fun ed => ed.eid == e)
        = (if isOneway ({} : Tags)
            then [⟨e, 0, 1, edgeLength (fun _ _ => 3)
              (coordOfNode (fun n => if n ≤ 1 then some ((n : ℚ), 0) else none)) 0 1⟩]
            else [⟨e, 0, 1, edgeLength (fun _ _ => 3)
              (coordOfNode (fun n => if n ≤ 1 then some ((n : ℚ), 0) else none)) 0 1⟩,
              ⟨e, 1, 0, edgeLength (fun _ _ => 3)
              (coordOfNode (fun n => if n ≤ 1 then some ((n : ℚ), 0) else none)) 0 1⟩]) ∧
      ∀ shadeByEdgeId : ℕ → ℚ,
        ∀ ed1 ∈ (buildWayEdges (fun _ _ => 3)
            (fun n => if n ≤ 1 then some ((n : ℚ), 0) else none)
            { nodeIds := [0, 1] } 0).filter (fun ed => ed.eid == e),
        ∀ ed2 ∈ (buildWayEdges (fun _ _ => 3)
            (fun n => if n ≤ 1 then some ((n : ℚ), 0) else none)
            { nodeIds := [0, 1] } 0).filter (fun ed => ed.eid == e),
          shadeByEdgeId ed1.eid = shadeByEdgeId ed2.eid) ∧
    ((∀ _p _q : ℚ × ℚ, (0 : ℚ) ≤ 3) →
      ∀ ed ∈ buildWayEdges (fun _ _ => 3)
          (fun n => if n ≤ 1 then some ((n : ℚ), 0) else none)
          { nodeIds := [0, 1] } 0, 0 < ed.length) :=
  buildWayEdges_directional (fun _ _ => 3)
    (fun n => if n ≤ 1 then some ((n : ℚ), 0) else none)
    { nodeIds := [0, 1] } 0 [] [] 0 1 (by rfl) (by norm_num [edgeLength])

/-! ## Router (`src/lib/routing.js`, `astar` / `nearestNode` / `findRoute`) -/

/-- The routing options destructured by `astar`; an absent field takes the
default (`walkSpeed = 1.4`, `shadePreference = 0`,
`pedestrianPathPreference = 0.2`). -/
structure RouteOptions where
  walkSpeed : Option ℚ := none
  shadePreference : Option ℚ := none
  pedestrianPathPreference : Option ℚ := none

/-- The `link.data` payload attached to every ngraph link by `buildGraph`. -/
structure LinkData where
  eid : ℕ
  length : ℚ
  highway : Option String := none
  shade : Option ℚ := none

/-- The graph consumed by the router: `coords[idx] = [lat, lon]` (possibly
absent) and the directed ngraph links `(fromId, toId, data)`. -/
structure Graph where
  coords : List (Option (ℚ × ℚ))
  links : List (ℕ × ℕ × LinkData)

/-- `graph.ngraph.getLink(from, to)`: the first link from `from` to `to`. -/
def getLink (g : Graph) (a b : ℕ) : Option LinkData :=
  (g.links.find? (fun l => l.1 == a && l.2.1 == b)).map (fun l => l.2.2)

/-- `graph.coords[idx]`, `none` when the slot is empty or out of range. -/
def coordAt (g : Graph) (i : ℕ) : Option (ℚ × ℚ) :=
  (g.coords.get? i).bind id

/-- `customDistance(fromNode, toNode, link)` — the per-edge cost `astar`
hands to the ngraph.path pathfinder. -/
def customDistance (opts : RouteOptions) (link : LinkData) : ℚ :=
  let walkSpeed := opts.walkSpeed.getD 1.4
  let shadePreference := opts.shadePreference.getD 0
  let pedestrianPathPreference := opts.pedestrianPathPreference.getD 0.2
  let shade := link.shade.getD 0
  let isPedestrianOnly :=
    link.highway.elim false
      (fun hw => (["footway", "path", "pedestrian", "steps"] : List String).contains hw)
  let pathTypeMultiplier : ℚ := if isPedestrianOnly then 1 - pedestrianPathPreference else 1
  let baseTime := link.length / walkSpeed
  let shadeMultiplier := 1 + shadePreference * (1 - shade)
  baseTime * pathTypeMultiplier * shadeMultiplier

/-- `isPedestrianPriority` exactly as the spec words it: highway type among
footway, path, pedestrian, steps. -/
def specIsPedestrianPriority (highway : Option String) : Bool :=
  highway.elim false
    (fun hw => (["footway", "path", "pedestrian", "steps"] : List String).contains hw)

/-- The spec's per-edge cost formula
`baseTime * pathTypeMultiplier * shadeMultiplier` with the documented
defaults. -/
def specEdgeCost (opts : RouteOptions) (link : LinkData) : ℚ :=
  (link.length / opts.walkSpeed.getD 1.4)
    * (if specIsPedestrianPriority link.highway
        then 1 - opts.pedestrianPathPreference.getD 0.2 else 1)
    * (1 + opts.shadePreference.getD 0 * (1 - link.shade.getD 0))

/-- C1: the router's per-edge cost agrees with the spec formula
`(length / walkSpeed) * pathTypeMultiplier * shadeMultiplier`, including all
three option defaults and the four pedestrian-priority highway types. -/
theorem customDistance_eq_specEdgeCost (opts : RouteOptions) (link : LinkData) :
    customDistance opts link = specEdgeCost opts link := rfl

/-- The result record returned by `astar`. -/
structure AStarResult where
  path : List ℕ
  edges : List ℕ
  shade : List ℚ
  distance : ℚ
  time_s : ℚ

/-- The consecutive node pairs of the found path together with the ngraph
link between them; pairs whose link lookup fails are skipped
(`if (link) { ... }`). -/
def pathLinks (g : Graph) (p : List ℕ) : List ((ℕ × ℕ) × LinkData) :=
  (p.zip p.tail).filterMap (fun q => (getLink g q.1 q.2).map (fun l => (q, l)))

/-- The geodesic distance `astar` recomputes between two path nodes
(`distance([coords[from][1], coords[from][0]], ...)`, i.e. `[lon, lat]`
order); a missing coordinate would crash the source, modelled as 0 and never
reached on graphs built by `buildGraph`. -/
def nodePairDistance (dist : ℚ × ℚ → ℚ × ℚ → ℚ) (g : Graph) (a b : ℕ) : ℚ :=
  match coordAt g a, coordAt g b with
  | some ca, some cb => dist (ca.2, ca.1) (cb.2, cb.1)
  | _, _ => 0

/-- `astar(graph, startIdx, goalIdx, opts)`: the pathfinding itself is the
external `ngraph.path` aStar, a parameter `findPath` here; the function then
extracts edge ids, per-edge shade, the recomputed total distance, and
`time_s = totalDistance / walkSpeed`.  The `Infinity` duration of the
empty-result branches is irrelevant downstream and modelled as 0. -/
def astar (dist : ℚ × ℚ → ℚ × ℚ → ℚ) (findPath : ℕ → ℕ → List ℕ) (g : Graph)
    (startIdx goalIdx : ℕ) (opts : RouteOptions) : AStarResult :=
  let walkSpeed := opts.walkSpeed.getD 1.4
  match coordAt g goalIdx with
  | none => ⟨[], [], [], 0, 0⟩
  | some _ =>
    let foundPath := findPath startIdx goalIdx
    if foundPath.isEmpty then ⟨[], [], [], 0, 0⟩
    else
      let links := pathLinks g foundPath
      let totalDistance := (links.map (fun x => nodePairDistance dist g x.1.1 x.1.2)).sum
      { path := foundPath,
        edges := links.map (fun x => x.2.eid),
        shade := links.map (fun x => x.2.shade.getD 0),
        distance := totalDistance,
        time_s := totalDistance / walkSpeed }

/-- The cumulative cost (final g-value) of a found path under the composite
cost function handed to the pathfinder: the sum of `customDistance` over the
traversed links. -/
def pathCostSum (opts : RouteOptions) (g : Graph) (p : List ℕ) : ℚ :=
  ((pathLinks g p).map (fun x => customDistance opts x.2)).sum

lemma pathLinks_getLink {g : Graph} {p : List ℕ} {x : (ℕ × ℕ) × LinkData}
    (h : x ∈ pathLinks g p) : getLink g x.1.1 x.1.2 = some x.2 := by
  unfold pathLinks at h
  obtain ⟨q, _, hq⟩ := List.mem_filterMap.mp h
  rcases Option.map_eq_some'.mp hq with ⟨l, hl, heq⟩
  cases heq
  exact hl

/-- C2 (amended): the returned cumulative distance is the sum of the
constituent edge lengths (whenever the graph's stored lengths agree with the
recomputed geodesic distances, as `buildGraph` guarantees), and the returned
duration is that pure distance divided by the walking speed — not the
cost-weighted g-value. -/
theorem astar_distance_and_duration (dist : ℚ × ℚ → ℚ × ℚ → ℚ)
    (findPath : ℕ → ℕ → List ℕ) (g : Graph) (startIdx goalIdx : ℕ)
    (opts : RouteOptions)
    (hwf : ∀ a b l, getLink g a b = some l → l.length = nodePairDistance dist g a b) :
    (astar dist findPath g startIdx goalIdx opts).distance
      = ((pathLinks g (astar dist findPath g startIdx goalIdx opts).path).map
          (fun x => x.2.length)).sum ∧
    (astar dist findPath g startIdx goalIdx opts).time_s
      = (astar dist findPath g startIdx goalIdx opts).distance
        / opts.walkSpeed.getD 1.4 := by
  cases hgoal : coordAt g goalIdx with
  | none =>
    simp [astar, hgoal, pathLinks]
  | some c =>
    by_cases hempty : (findPath startIdx goalIdx).isEmpty
    · simp [astar, hgoal, hempty, pathLinks]
    · simp only [astar, hgoal, if_neg hempty]
      refine ⟨?_, trivial⟩
      exact congrArg List.sum (List.map_congr_left
        (fun x hx => (hwf x.1.1 x.1.2 x.2 (pathLinks_getLink hx)).symm))

/-- Witness for C2 on a concrete one-edge graph. -/
theorem astar_distance_and_duration_witness :
    (astar (fun _ _ => 14) (fun _ _ => [0, 1])
        ⟨[some (0, 0), some (1, 1)], [(0, 1, ⟨0, 14, some "footway", some 0⟩)]⟩
        0 1 {}).distance
      = ((pathLinks ⟨[some (0, 0), some (1, 1)], [(0, 1, ⟨0, 14, some "footway", some 0⟩)]⟩
          (astar (fun _ _ => 14) (fun _ _ => [0, 1])
            ⟨[some (0, 0), some (1, 1)], [(0, 1, ⟨0, 14, some "footway", some 0⟩)]⟩
            0 1 {}).path).map (fun x => x.2.length)).sum ∧
    (astar (fun _ _ => 14) (fun _ _ => [0, 1])
        ⟨[some (0, 0), some (1, 1)], [(0, 1, ⟨0, 14, some "footway", some 0⟩)]⟩
        0 1 {}).time_s
      = (astar (fun _ _ => 14) (fun _ _ => [0, 1])
          ⟨[some (0, 0), some (1, 1)], [(0, 1, ⟨0, 14, some "footway", some 0⟩)]⟩
          0 1 {}).distance / (({} : RouteOptions)).walkSpeed.getD 1.4 :=
  astar_distance_and_duration (fun _ _ => 14) (fun _ _ => [0, 1])
    ⟨[some (0, 0), some (1, 1)], [(0, 1, ⟨0, 14, some "footway", some 0⟩)]⟩ 0 1 {}
    (by
      intro a b l h
      unfold getLink at h
      match a, b with
      | 0, 1 =>
        simp only [List.find?] at h
        cases h
        rfl
      | 0, 0 => simp [List.find?] at h
      | 1, _ => simp [List.find?] at h
      | Nat.succ (Nat.succ k), _ => simp [List.find?] at h
      | 0, Nat.succ (Nat.succ k) => simp [List.find?] at h)

/-- C2 (counterexample): on a single 14 m `footway` edge with all options
defaulted, the returned duration is `14 / 1.4 = 10` s, while the final
g-value under the composite cost function is `10 * (1 - 0.2) = 8` s — the
duration is pure distance over speed, not the cost-weighted g-value. -/
theorem astar_duration_not_gvalue_counterexample :
    (astar (fun _ _ => 14) (fun _ _ => [0, 1])
        ⟨[some (0, 0), some (1, 1)], [(0, 1, ⟨0, 14, some "footway", some 0⟩)]⟩
        0 1 {}).time_s = 10 ∧
    pathCostSum {} ⟨[some (0, 0), some (1, 1)], [(0, 1, ⟨0, 14, some "footway", some 0⟩)]⟩
      (astar (fun _ _ => 14) (fun _ _ => [0, 1])
        ⟨[some (0, 0), some (1, 1)], [(0, 1, ⟨0, 14, some "footway", some 0⟩)]⟩
        0 1 {}).path = 8 ∧
    (10 : ℚ) ≠ 8 := by
  refine ⟨?_, ?_, by norm_num⟩
  · show ((14 : ℚ) + 0) / 1.4 = 10
    norm_num
  · show (14 : ℚ) / 1.4 * (1 - 0.2) * (1 + 0 * (1 - 0)) + 0 = 8
    norm_num

/-- Whether a node has any adjacent link (`forEachLinkedNode` finds at least
one incident link, in either direction). -/
def hasConnections (g : Graph) (i : ℕ) : Bool :=
  g.links.any (fun l => l.1 == i || l.2.1 == i)

/-- `nearestNode(graph, lat, lon)`: linear scan over all node slots, skipping
empty slots and unconnected nodes, keeping the strictly closest node; `-1`
(no candidate) is modelled as `none`. -/
def nearestNode (dist : ℚ × ℚ → ℚ × ℚ → ℚ) (g : Graph) (lat lon : ℚ) : Option ℕ :=
  ((List.range g.coords.length).foldl
    (fun best i =>
      match coordAt g i with
      | none => best
      | some c =>
        if hasConnections g i then
          match best with
          | none => some (i, dist (lon, lat) (c.2, c.1))
          | some bd =>
            if dist (lon, lat) (c.2, c.1) < bd.2
            then some (i, dist (lon, lat) (c.2, c.1)) else best
        else best)
    none).map (fun bd => bd.1)

/-- The two failure modes of `findRoute`: the `"Could not find nearby nodes"`
throw (invalid input) and the `"No route found"` throw. -/
inductive RouteError where
  | invalidInput
  | noRouteFound
deriving DecidableEq

/-- The route record returned by `findRoute` on success. -/
structure RouteResult where
  coordinates : List (ℚ × ℚ)
  distance : ℚ
  duration : ℚ
  path : List ℕ
  edges : List ℕ
  shade : List ℚ

/-- `findRoute(graph, start, goal, options)`: resolve both endpoints to their
nearest connected nodes, run the A* search, and either throw or assemble the
full result (coordinates emitted in `[lon, lat]` order). -/
def findRoute (dist : ℚ × ℚ → ℚ × ℚ → ℚ) (findPath : ℕ → ℕ → List ℕ) (g : Graph)
    (start goal : ℚ × ℚ) (opts : RouteOptions) : Except RouteError RouteResult :=
  match nearestNode dist g start.1 start.2, nearestNode dist g goal.1 goal.2 with
  | some startIdx, some goalIdx =>
    let result := astar dist findPath g startIdx goalIdx opts
    if result.path.isEmpty then Except.error RouteError.noRouteFound
    else Except.ok {
      coordinates := result.path.map (fun i =>
        (((coordAt g i).getD (0, 0)).2, ((coordAt g i).getD (0, 0)).1)),
      distance := result.distance,
      duration := result.time_s,
      path := result.path,
      edges := result.edges,
      shade := result.shade }
  | _, _ => Except.error RouteError.invalidInput

lemma astar_edges_shade_length (dist : ℚ × ℚ → ℚ × ℚ → ℚ)
    (findPath : ℕ → ℕ → List ℕ) (g : Graph) (s t : ℕ) (opts : RouteOptions) :
    (astar dist findPath g s t opts).edges.length
      = (astar dist findPath g s t opts).shade.length := by
  cases hg : coordAt g t with
  | none => simp [astar, hg]
  | some c =>
    by_cases h : (findPath s t).isEmpty
    · simp [astar, hg, h]
    · simp [astar, hg, h]

lemma astar_time_eq (dist : ℚ × ℚ → ℚ × ℚ → ℚ)
    (findPath : ℕ → ℕ → List ℕ) (g : Graph) (s t : ℕ) (opts : RouteOptions) :
    (astar dist findPath g s t opts).time_s
      = (astar dist findPath g s t opts).distance / opts.walkSpeed.getD 1.4 := by
  cases hg : coordAt g t with
  | none => simp [astar, hg]
  | some c =>
    by_cases h : (findPath s t).isEmpty
    · simp [astar, hg, h]
    · simp [astar, hg, h]

/-- C7: `findRoute` fails with the invalid-input error exactly when no graph
node resolves near the start or the goal, fails with the no-route error
exactly when the search between the resolved nodes returns an empty path, and
every successful return is a complete result: one `[lon, lat]` coordinate per
path node, aligned edge-id and shade sequences, a nonempty path, and the
duration derived from the distance. -/
theorem findRoute_contract (dist : ℚ × ℚ → ℚ × ℚ → ℚ)
    (findPath : ℕ → ℕ → List ℕ) (g : Graph) (start goal : ℚ × ℚ)
    (opts : RouteOptions) :
    (findRoute dist findPath g start goal opts = Except.error RouteError.invalidInput
      ↔ nearestNode dist g start.1 start.2 = none
        ∨ nearestNode dist g goal.1 goal.2 = none) ∧
    (∀ s t, nearestNode dist g start.1 start.2 = some s →
      nearestNode dist g goal.1 goal.2 = some t →
      (findRoute dist findPath g start goal opts = Except.error RouteError.noRouteFound
        ↔ (astar dist findPath g s t opts).path = [])) ∧
    (∀ res, findRoute dist findPath g start goal opts = Except.ok res →
      res.coordinates.length = res.path.length ∧
      res.edges.length = res.shade.length ∧
      res.path ≠ [] ∧
      res.duration = res.distance / opts.walkSpeed.getD 1.4) := by
  cases hs : nearestNode dist g start.1 start.2 with
  | none =>
    have hfr : findRoute dist findPath g start goal opts
        = Except.error RouteError.invalidInput := by
      cases ht : nearestNode dist g goal.1 goal.2 <;> simp [findRoute, hs, ht]
    refine ⟨?_, ?_, ?_⟩
    · rw [hfr]
      simp [hs]
    · intro s t hs' ht'
      exact absurd hs' (by simp)
    · intro res hres
      rw [hfr] at hres
      exact absurd hres (by simp)
  | some s =>
    cases ht : nearestNode dist g goal.1 goal.2 with
    | none =>
      have hfr : findRoute dist findPath g start goal opts
          = Except.error RouteError.invalidInput := by
        simp [findRoute, hs, ht]
      refine ⟨?_, ?_, ?_⟩
      · rw [hfr]
        simp [ht]
      · intro s' t' hs' ht'
        exact absurd ht' (by simp)
      · intro res hres
        rw [hfr] at hres
        exact absurd hres (by simp)
    | some t =>
      by_cases hempty : (astar dist findPath g s t opts).path.isEmpty
      · have hfr : findRoute dist findPath g start goal opts
            = Except.error RouteError.noRouteFound := by
          simp [findRoute, hs, ht, hempty]
        refine ⟨?_, ?_, ?_⟩
        · rw [hfr]
          simp [hs, ht]
        · intro s' t' hs' ht'
          cases hs'
          cases ht'
          rw [hfr]
          simp only [List.isEmpty_iff] at hempty
          simp [hempty]
        · intro res hres
          rw [hfr] at hres
          exact absurd hres (by simp)
      · have hfr : findRoute dist findPath g start goal opts
            = Except.ok {
                coordinates := (astar dist findPath g s t opts).path.map (fun i =>
                  (((coordAt g i).getD (0, 0)).2, ((coordAt g i).getD (0, 0)).1)),
                distance := (astar dist findPath g s t opts).distance,
                duration := (astar dist findPath g s t opts).time_s,
                path := (astar dist findPath g s t opts).path,
                edges := (astar dist findPath g s t opts).edges,
                shade := (astar dist findPath g s t opts).shade } := by
          simp [findRoute, hs, ht, hempty]
        refine ⟨?_, ?_, ?_⟩
        · rw [hfr]
          simp [hs, ht]
        · intro s' t' hs' ht'
          cases hs'
          cases ht'
          rw [hfr]
          simp only [List.isEmpty_iff] at hempty
          simp [hempty]
        · intro res hres
          rw [hfr, Except.ok.injEq] at hres
          subst hres
          refine ⟨by simp, astar_edges_shade_length dist findPath g s t opts, ?_,
            astar_time_eq dist findPath g s t opts⟩
          simpa [List.isEmpty_iff] using hempty

/-- Witness for C7: on the empty graph no node resolves, so `findRoute`
reports invalid input. -/
theorem findRoute_contract_witness :
    findRoute (fun _ _ => 1) (fun _ _ => []) ⟨[], []⟩ (0, 0) (1, 1) {}
      = Except.error RouteError.invalidInput :=
  (findRoute_contract (fun _ _ => 1) (fun _ _ => []) ⟨[], []⟩ (0, 0) (1, 1) {}).1.mpr
    (Or.inl rfl)

/-! ## Route query entry point (`src/lib/routing.js`, `findWalkingRoute`) -/

/-- `ROUTE_PROGRESS_STATUS`: the progress stages reported to the
caller-supplied `onProgress` callback (the spec names them FetchingTopology,
ComputingShadeField, BuildingGraph, Searching, Completed;
`APPLYING_SHADE_DATA` exists in the enum but is never reported). -/
inductive RouteProgressStatus where
  | gettingWaysData
  | computingShadeMap
  | buildingGraph
  | applyingShadeData
  | findingRoute
  | routeCompleted
deriving DecidableEq

/-- The stage order in which `findWalkingRoute` reports progress. -/
def progressStageOrder : List RouteProgressStatus :=
  [RouteProgressStatus.gettingWaysData, RouteProgressStatus.computingShadeMap,
   RouteProgressStatus.buildingGraph, RouteProgressStatus.findingRoute,
   RouteProgressStatus.routeCompleted]

/-- `findWalkingRoute(start, end, date, options)`, modelled as the sequence
of `onProgress` invocations together with the outcome.  Each sub-stage is a
parameter that may fail: `getWaysData` reports its stage before fetching and
propagates fetch failures; `getShadeData` reports its stage and then
*catches* any shade-generation failure, returning no shade data; `buildGraph`
reports its stage before building and propagates; `findRoute` is preceded by
the searching stage and propagates; the completed stage is reported only
after success. -/
def findWalkingRouteRun (waysResult : Except String ℕ)
    (shadeResult : Except String ℕ)
    (buildGraphRun : ℕ → Option ℕ → Except String ℕ)
    (findRouteRun : ℕ → Except String ℕ) :
    List RouteProgressStatus × Except String ℕ :=
  match waysResult with
  | Except.error e => ([RouteProgressStatus.gettingWaysData], Except.error e)
  | Except.ok waysData =>
    let shadeData : Option ℕ := shadeResult.toOption
    match buildGraphRun waysData shadeData with
    | Except.error e =>
      ([RouteProgressStatus.gettingWaysData, RouteProgressStatus.computingShadeMap,
        RouteProgressStatus.buildingGraph], Except.error e)
    | Except.ok graph =>
      match findRouteRun graph with
      | Except.error e =>
        ([RouteProgressStatus.gettingWaysData, RouteProgressStatus.computingShadeMap,
          RouteProgressStatus.buildingGraph, RouteProgressStatus.findingRoute],
          Except.error e)
      | Except.ok route =>
        ([RouteProgressStatus.gettingWaysData, RouteProgressStatus.computingShadeMap,
          RouteProgressStatus.buildingGraph, RouteProgressStatus.findingRoute,
          RouteProgressStatus.routeCompleted], Except.ok route)

/-- C8 (counterexample): when the shade-field stage fails, the failure does
not propagate — the catch in `getShadeData` swallows it, and all subsequent
stages' callbacks still fire, completing the run. -/
theorem findWalkingRoute_shade_failure_counterexample :
    findWalkingRouteRun (Except.ok 0) (Except.error "shade generation failed")
        (fun _ _ => Except.ok 0) (fun _ => Except.ok 0)
      = (progressStageOrder, Except.ok 0) := rfl

/-- C8 (amended): the progress callback fires at most once per stage, in
strict stage order (the reported trace is always a prefix of the stage
order); failures while fetching ways, building the graph, or searching
propagate without invoking the remaining stages' callbacks; but a failure of
the shade-field stage is caught — only the optional shade value matters, and
the run continues through the remaining stages. -/
theorem findWalkingRoute_progress_order (waysResult : Except String ℕ)
    (shadeResult : Except String ℕ)
    (buildGraphRun : ℕ → Option ℕ → Except String ℕ)
    (findRouteRun : ℕ → Except String ℕ) :
    (findWalkingRouteRun waysResult shadeResult buildGraphRun findRouteRun).1
      <+: progressStageOrder ∧
    (findWalkingRouteRun waysResult shadeResult buildGraphRun findRouteRun).1.Nodup ∧
    (∀ e, waysResult = Except.error e →
      findWalkingRouteRun waysResult shadeResult buildGraphRun findRouteRun
        = ([RouteProgressStatus.gettingWaysData], Except.error e)) ∧
    (∀ w, waysResult = Except.ok w →
      ∀ e, buildGraphRun w shadeResult.toOption = Except.error e →
      findWalkingRouteRun waysResult shadeResult buildGraphRun findRouteRun
        = ([RouteProgressStatus.gettingWaysData, RouteProgressStatus.computingShadeMap,
            RouteProgressStatus.buildingGraph], Except.error e)) ∧
    (∀ w gr, waysResult = Except.ok w →
      buildGraphRun w shadeResult.toOption = Except.ok gr →
      ∀ e, findRouteRun gr = Except.error e →
      findWalkingRouteRun waysResult shadeResult buildGraphRun findRouteRun
        = ([RouteProgressStatus.gettingWaysData, RouteProgressStatus.computingShadeMap,
            RouteProgressStatus.buildingGraph, RouteProgressStatus.findingRoute],
            Except.error e)) ∧
    (∀ shadeResult₂ : Except String ℕ, shadeResult.toOption = shadeResult₂.toOption →
      findWalkingRouteRun waysResult shadeResult buildGraphRun findRouteRun
        = findWalkingRouteRun waysResult shadeResult₂ buildGraphRun findRouteRun) := by
  cases hw : waysResult with
  | error e =>
    refine ⟨⟨progressStageOrder.tail, rfl⟩, by simp [findWalkingRouteRun], ?_, ?_, ?_, ?_⟩
    · intro e' he'
      cases he'
      rfl
    · intro w hw'
      exact absurd hw' (by simp)
    · intro w gr hw'
      exact absurd hw' (by simp)
    · intro shadeResult₂ _
      rfl
  | ok w =>
    cases hb : buildGraphRun w shadeResult.toOption with
    | error e =>
      have hrun : findWalkingRouteRun (Except.ok w) shadeResult buildGraphRun findRouteRun
          = ([RouteProgressStatus.gettingWaysData, RouteProgressStatus.computingShadeMap,
              RouteProgressStatus.buildingGraph], Except.error e) := by
        simp [findWalkingRouteRun, hb]
      refine ⟨?_, ?_, ?_, ?_, ?_, ?_⟩
      · rw [hrun]
        exact ⟨[RouteProgressStatus.findingRoute, RouteProgressStatus.routeCompleted], rfl⟩
      · rw [hrun]
        simp
      · intro e' he'
        exact absurd he' (by simp)
      · intro w' hw' e' he'
        cases hw'
        rw [hb] at he'
        cases he'
        exact hrun
      · intro w' gr hw' hb'
        cases hw'
        rw [hb] at hb'
        exact absurd hb' (by simp)
      · intro shadeResult₂ hsh
        rw [hrun]
        simp only [findWalkingRouteRun, ← hsh, hb]
    | ok gr =>
      cases hr : findRouteRun gr with
      | error e =>
        have hrun : findWalkingRouteRun (Except.ok w) shadeResult buildGraphRun findRouteRun
            = ([RouteProgressStatus.gettingWaysData, RouteProgressStatus.computingShadeMap,
                RouteProgressStatus.buildingGraph, RouteProgressStatus.findingRoute],
                Except.error e) := by
          simp [findWalkingRouteRun, hb, hr]
        refine ⟨?_, ?_, ?_, ?_, ?_, ?_⟩
        · rw [hrun]
          exact ⟨[RouteProgressStatus.routeCompleted], rfl⟩
        · rw [hrun]
          simp
        · intro e' he'
          exact absurd he' (by simp)
        · intro w' hw' e' he'
          cases hw'
          rw [hb] at he'
          exact absurd he' (by simp)
        · intro w' gr' hw' hb' e' he'
          cases hw'
          rw [hb] at hb'
          cases hb'
          rw [hr] at he'
          cases he'
          exact hrun
        · intro shadeResult₂ hsh
          rw [hrun]
          simp only [findWalkingRouteRun, ← hsh, hb, hr]
      | ok route =>
        have hrun : findWalkingRouteRun (Except.ok w) shadeResult buildGraphRun findRouteRun
            = (progressStageOrder, Except.ok route) := by
          simp [findWalkingRouteRun, hb, hr, progressStageOrder]
        refine ⟨?_, ?_, ?_, ?_, ?_, ?_⟩
        · rw [hrun]
        · rw [hrun]
          simp [progressStageOrder]
        · intro e' he'
          exact absurd he' (by simp)
        · intro w' hw' e' he'
          cases hw'
          rw [hb] at he'
          exact absurd he' (by simp)
        · intro w' gr' hw' hb' e' he'
          cases hw'
          rw [hb] at hb'
          cases hb'
          rw [hr] at he'
          exact absurd he' (by simp)
        · intro shadeResult₂ hsh
          rw [hrun]
          simp only [findWalkingRouteRun, ← hsh, hb, hr, progressStageOrder]

/-- Witness for C8: a ways-fetch failure truncates the trace at the first
stage. -/
theorem findWalkingRoute_progress_order_witness :
    findWalkingRouteRun (Except.error "overpass failed") (Except.ok 0)
        (fun _ _ => Except.ok 0) (fun _ => Except.ok 0)
      = ([RouteProgressStatus.gettingWaysData], Except.error "overpass failed") :=
  (findWalkingRoute_progress_order (Except.error "overpass failed") (Except.ok 0)
      (fun _ _ => Except.ok 0) (fun _ => Except.ok 0)).2.2.1 "overpass failed" rfl

/-! ## Route analysis (`src/lib/routeAnalysis.js`, `computeSegmentsAndStats`) -/

/-- JavaScript `Math.round`: round half toward positive infinity. -/
def jsRound (x : ℚ) : ℤ := ⌊x + 1 / 2⌋

/-- The consecutive coordinate pairs of a route (`coordinates[i-1],
coordinates[i]` for `i ≥ 1`). -/
def routePairs (coordinates : List (ℚ × ℚ)) : List ((ℚ × ℚ) × (ℚ × ℚ)) :=
  coordinates.zip coordinates.tail

/-- `route.shade[i-1]` as read by `computeSegmentsAndStats`; a missing entry
behaves like `undefined > 0`, i.e. like 0. -/
def shadeAtIdx (shade : List ℚ) (j : ℕ) : ℚ :=
  (shade.get? j).getD 0

/-- The statistics record of `computeSegmentsAndStats` (all values rounded
to integers as in the source). -/
structure ShadeStats where
  shadedPercentage : ℤ
  sunnyPercentage : ℤ
  totalDistance : ℤ
  shadedDistance : ℤ
  sunnyDistance : ℤ

/-- The full result of `computeSegmentsAndStats`: each segment is the
two-point polyline `[start, end]` pushed by the loop. -/
structure SegmentsAndStats where
  shadedSegments : List (List (ℚ × ℚ))
  sunnySegments : List (List (ℚ × ℚ))
  stats : ShadeStats

/-- The rational total distance accumulated by the loop of
`computeSegmentsAndStats`. -/
def segTotalDistance (dist : ℚ × ℚ → ℚ × ℚ → ℚ) (coordinates : List (ℚ × ℚ)) : ℚ :=
  ((routePairs coordinates).map (fun p => dist p.1 p.2)).sum

/-- The rational shaded distance accumulated by the loop (segments whose
shade value is strictly positive). -/
def segShadedDistance (dist : ℚ × ℚ → ℚ × ℚ → ℚ) (coordinates : List (ℚ × ℚ))
    (shade : List ℚ) : ℚ :=
  (((routePairs coordinates).enum.filter
      (fun pe => decide (0 < shadeAtIdx shade pe.1))).map
    (fun pe => dist pe.2.1 pe.2.2)).sum

/-- `computeSegmentsAndStats(route)`: classify each consecutive coordinate
pair by `shade > 0`, push one two-point segment per pair, and compute rounded
distance statistics and percentages (0 when the total distance is not
positive). -/
def computeSegmentsAndStats (dist : ℚ × ℚ → ℚ × ℚ → ℚ)
    (coordinates : List (ℚ × ℚ)) (shade : List ℚ) : SegmentsAndStats :=
  let pairs := (routePairs coordinates).enum
  let shadedPairs := pairs.filter (fun pe => decide (0 < shadeAtIdx shade pe.1))
  let sunnyPairs := pairs.filter (fun pe => decide (¬ 0 < shadeAtIdx shade pe.1))
  let totalDistance := segTotalDistance dist coordinates
  let totalShadedDistance := segShadedDistance dist coordinates shade
  let totalSunnyDistance := totalDistance - totalShadedDistance
  { shadedSegments := shadedPairs.map (fun pe => [pe.2.1, pe.2.2]),
    sunnySegments := sunnyPairs.map (fun pe => [pe.2.1, pe.2.2]),
    stats := {
      shadedPercentage :=
        if 0 < totalDistance then jsRound (totalShadedDistance / totalDistance * 100) else 0,
      sunnyPercentage :=
        if 0 < totalDistance then jsRound (totalSunnyDistance / totalDistance * 100) else 0,
      totalDistance := jsRound totalDistance,
      shadedDistance := jsRound totalShadedDistance,
      sunnyDistance := jsRound totalSunnyDistance } }

/-- C3 (counterexample): an all-sunny three-point route yields one two-point
sunny segment per coordinate pair — two segments, not a single polyline
spanning the whole route. -/
theorem computeSegmentsAndStats_no_grouping_counterexample :
    (computeSegmentsAndStats (fun _ _ => 1) [(0, 0), (1, 0), (2, 0)] [0, 0]).sunnySegments
      = [[(0, 0), (1, 0)], [(1, 0), (2, 0)]] ∧
    (computeSegmentsAndStats (fun _ _ => 1)
      [(0, 0), (1, 0), (2, 0)] [0, 0]).sunnySegments.length ≠ 1 := by
  refine ⟨rfl, ?_⟩
  have h2 : (computeSegmentsAndStats (fun _ _ => 1)
      [(0, 0), (1, 0), (2, 0)] [0, 0]).sunnySegments
      = [[(0, 0), (1, 0)], [(1, 0), (2, 0)]] := rfl
  rw [h2]
  norm_num

lemma shadeAtIdx_zero {shade : List ℚ} (hshade : ∀ q ∈ shade, q = 0) (j : ℕ) :
    shadeAtIdx shade j = 0 := by
  unfold shadeAtIdx
  cases hj : shade.get? j with
  | none => rfl
  | some q =>
    simpa using hshade q (List.get?_mem hj)

/-- C3 (amended): `computeSegmentsAndStats` emits one two-point segment per
consecutive coordinate pair without grouping runs; on a route whose shade
values are all 0 every segment is sunny, the shaded list is empty, and the
stats report 0% shaded and 100% sunny (given a positive total distance). -/
theorem computeSegmentsAndStats_all_sunny (dist : ℚ × ℚ → ℚ × ℚ → ℚ)
    (coordinates : List (ℚ × ℚ)) (shade : List ℚ)
    (hshade : ∀ q ∈ shade, q = 0)
    (hpos : 0 < segTotalDistance dist coordinates) :
    (computeSegmentsAndStats dist coordinates shade).shadedSegments = [] ∧
    (computeSegmentsAndStats dist coordinates shade).sunnySegments
      = (routePairs coordinates).map (fun p => [p.1, p.2]) ∧
    (computeSegmentsAndStats dist coordinates shade).stats.shadedPercentage = 0 ∧
    (computeSegmentsAndStats dist coordinates shade).stats.sunnyPercentage = 100 := by
  have hz : ∀ j, shadeAtIdx shade j = 0 := shadeAtIdx_zero hshade
  have hfiltS : ((routePairs coordinates).enum.filter
      (fun pe => decide (0 < shadeAtIdx shade pe.1))) = [] := by
    rw [List.filter_eq_nil_iff]
    intro pe _
    simp [hz]
  have hfiltU : ((routePairs coordinates).enum.filter
      (fun pe => decide (¬ 0 < shadeAtIdx shade pe.1))) = (routePairs coordinates).enum := by
    rw [List.filter_eq_self]
    intro pe _
    simp [hz]
  have hsh0 : segShadedDistance dist coordinates shade = 0 := by
    unfold segShadedDistance
    rw [hfiltS]
    rfl
  refine ⟨?_, ?_, ?_, ?_⟩
  · simp only [computeSegmentsAndStats, hfiltS]
    rfl
  · simp only [computeSegmentsAndStats, hfiltU]
    have : ((routePairs coordinates).enum.map (fun pe => [pe.2.1, pe.2.2]))
        = (routePairs coordinates).map (fun p => [p.1, p.2]) := by
      rw [show (fun pe : ℕ × ((ℚ × ℚ) × (ℚ × ℚ)) => [pe.2.1, pe.2.2])
          = (fun p : (ℚ × ℚ) × (ℚ × ℚ) => [p.1, p.2]) ∘ Prod.snd from rfl,
        ← List.map_map, List.enum_map_snd]
    exact this
  · simp only [computeSegmentsAndStats, hsh0, if_pos hpos]
    norm_num [jsRound]
  · simp only [computeSegmentsAndStats, hsh0, if_pos hpos]
    rw [sub_zero, div_self (ne_of_gt hpos)]
    norm_num [jsRound]

/-- Witness for C3 on the concrete all-sunny three-point route. -/
theorem computeSegmentsAndStats_all_sunny_witness :
    (computeSegmentsAndStats (fun _ _ => 1) [(0, 0), (1, 0), (2, 0)] [0, 0]).shadedSegments
      = [] ∧
    (computeSegmentsAndStats (fun _ _ => 1) [(0, 0), (1, 0), (2, 0)] [0, 0]).sunnySegments
      = (routePairs [(0, 0), (1, 0), (2, 0)]).map (fun p => [p.1, p.2]) ∧
    (computeSegmentsAndStats (fun _ _ => 1)
      [(0, 0), (1, 0), (2, 0)] [0, 0]).stats.shadedPercentage = 0 ∧
    (computeSegmentsAndStats (fun _ _ => 1)
      [(0, 0), (1, 0), (2, 0)] [0, 0]).stats.sunnyPercentage = 100 :=
  computeSegmentsAndStats_all_sunny (fun _ _ => 1) [(0, 0), (1, 0), (2, 0)] [0, 0]
    (by
      intro q hq
      rcases List.mem_cons.mp hq with rfl | hq'
      · rfl
      · rcases List.mem_cons.mp hq' with rfl | hq''
        · rfl
        · simp at hq'')
    (by
      show (0 : ℚ) < ((routePairs [(0, 0), (1, 0), (2, 0)]).map (fun _ => (1 : ℚ))).sum
      norm_num [routePairs])
